import Mathlib

/-!
Shallow embedding of the cw-usdc contract (src/contracts/cw-usdc/src/{contract,execute,error}.rs).

Storage (cw-storage-plus `Item`/`Map`) is embedded as a record `State` of finite maps;
`Uint128` amounts are `Nat` (the only arithmetic in the source is `checked_sub`, so no
modular wrap can occur); fallible handlers return `Except ContractError (State × Response)`,
mirroring the CosmWasm semantics in which a handler that returns `Err` has all of its
storage writes rolled back.
-/

namespace CwUsdc

/-- Principals are address strings (`cosmwasm_std::Addr` holds a validated string). -/
abbrev Addr := String

/-- Modelled from the spec: address validation is delegated to an external
address-validation collaborator (`deps.api.addr_validate`), which is not part of this
repository.  We model a principal string as well-formed iff it is nonempty. -/
def validAddr (s : String) : Bool := !s.isEmpty

/-- Embedding of the `cosmwasm_std::StdError` variants this contract can actually
produce: `GenericErr` (address validation), `NotFound` (a `Map::load` miss) and
`Overflow` (a failed `Uint128::checked_sub`). -/
inductive StdError where
  | genericErr (msg : String)
  | notFound
  | overflow
deriving DecidableEq, Repr

/-- Embedding of `deps.api.addr_validate`: returns the validated `Addr` or a
generic `StdError`. -/
def addr_validate (s : String) : Except StdError Addr :=
  if validAddr s then Except.ok s else Except.error (StdError.genericErr "invalid address")

/-- The contract error enum, from `src/error.rs`.  `Std` is the `#[from] StdError`
passthrough.  Note that `error.rs` declares no dedicated `InsufficientAllowance`,
`Frozen`-for-blacklist (`Blacklisted`) or `Unauthorized`-by-storage variants beyond
the ones below. -/
inductive ContractError where
  | std (e : StdError)
  | unauthorized
  | frozen
  | invalidSubdenom (subdenom : String)
  | invalidDenom (denom : String) (message : String)
  | denomDoesNotExist (denom : String)
  | burnFromAddressNotSupported (address : String)
  | zeroAmount
deriving DecidableEq, Repr

/-- The error an over-allowance mint or burn actually produces: `error.rs` has no
dedicated `InsufficientAllowance` variant, so the failed `Uint128::checked_sub`
surfaces its `OverflowError` as `StdError::Overflow`, wrapped by the `Std`
passthrough.  The spec's error taxonomy (§7) calls this failure
`InsufficientAllowance`. -/
def insufficientAllowance : ContractError := ContractError.std StdError.overflow

/-- Embedding of `Uint128::checked_sub` followed by the `?`-conversion of its
`OverflowError` into `StdError`. -/
def checked_sub (a b : Nat) : Except StdError Nat :=
  if b ≤ a then Except.ok (a - b) else Except.error StdError.overflow

/-- A `cw_storage_plus::Map` keyed by address. -/
abbrev StorageMap (α : Type) := Addr → Option α

/-- Embedding of `Map::save`. -/
def StorageMap.save {α : Type} (m : StorageMap α) (k : Addr) (v : α) : StorageMap α :=
  fun q => if q = k then some v else m q

/-- Embedding of `Map::may_load`. -/
def StorageMap.may_load {α : Type} (m : StorageMap α) (k : Addr) : Option α := m k

/-- Embedding of `Map::load`: a missing key is a `StdError::NotFound`. -/
def StorageMap.load {α : Type} (m : StorageMap α) (k : Addr) : Except StdError α :=
  match m k with
  | some v => Except.ok v
  | none => Except.error StdError.notFound

/-- Embedding of `Map::update`: run the closure on the current (optional) value and,
on success, write the result back, returning the new value together with the
updated map.  On failure nothing is written. -/
def StorageMap.update {α E : Type} (m : StorageMap α) (k : Addr)
    (f : Option α → Except E α) : Except E (α × StorageMap α) :=
  match f (m k) with
  | Except.error e => Except.error e
  | Except.ok v => Except.ok (v, m.save k v)

/-- The singleton `Config` item, from `src/state.rs` as used by `contract.rs` and
`execute.rs` (fields `owner`, `is_frozen`, `denom`). -/
structure Config where
  owner : Addr
  is_frozen : Bool
  denom : String
deriving DecidableEq, Repr

/-- The contract's persistent storage: the `CONFIG` item plus the five `Map`s
declared in `src/state.rs` (`MINTER_ALLOWANCES`, `BURNER_ALLOWANCES`,
`BLACKLISTER_ALLOWANCES`, `FREEZER_ALLOWANCES`, `BLACKLISTED_ADDRESSES`). -/
structure State where
  config : Config
  minter_allowances : StorageMap Nat
  burner_allowances : StorageMap Nat
  blacklister_allowances : StorageMap Bool
  freezer_allowances : StorageMap Bool
  blacklisted_addresses : StorageMap Bool

/-- A `cosmwasm_std::Coin`. -/
structure Coin where
  denom : String
  amount : Nat
deriving DecidableEq, Repr

/-- The `osmo_bindings::OsmosisMsg` variants used by the contract. -/
inductive OsmosisMsg where
  | createDenom (subdenom : String)
  | mintTokens (denom : String) (amount : Nat) (mint_to_address : String)
  | burnTokens (denom : String) (amount : Nat) (burn_from_address : String)
  | changeAdmin (denom : String) (new_admin_address : String)
deriving DecidableEq, Repr

/-- Embedding of `OsmosisMsg::mint_contract_tokens`. -/
def OsmosisMsg.mint_contract_tokens (denom : String) (amount : Nat)
    (mint_to_address : String) : OsmosisMsg :=
  OsmosisMsg.mintTokens denom amount mint_to_address

/-- Embedding of `OsmosisMsg::burn_contract_tokens`. -/
def OsmosisMsg.burn_contract_tokens (denom : String) (amount : Nat)
    (burn_from_address : String) : OsmosisMsg :=
  OsmosisMsg.burnTokens denom amount burn_from_address

/-- An outbound message attached to a `Response`: either an `OsmosisMsg` or a
`BankMsg::Send`. -/
inductive CosmosMsg where
  | osmosis (msg : OsmosisMsg)
  | bankSend (to_address : String) (amount : List Coin)
deriving DecidableEq, Repr

/-- A `cosmwasm_std::Response`: the attributes and outbound messages a successful
handler returns. -/
structure Response where
  attributes : List (String × String)
  messages : List CosmosMsg
deriving DecidableEq, Repr

/-! ## Handlers from `src/execute.rs` -/

/-- Embedding of `execute.rs::mint`: validate `to_address`, reject zero amounts,
decrement the caller's minter allowance via `checked_sub` (propagating the overflow
error when the allowance is insufficient), then emit the tokenfactory mint to the
contract's own address followed by the bank send to the recipient.  (The source
reads `CONFIG` for the denom after the allowance update; `CONFIG` always exists
post-instantiation, which the `State` type makes total.) -/
def mint (env_contract_address sender : Addr) (to_address : String) (amount : Nat)
    (s : State) : Except ContractError (State × Response) :=
  match addr_validate to_address with
  | Except.error e => Except.error (ContractError.std e)
  | Except.ok _ =>
    if amount = 0 then Except.error ContractError.zeroAmount
    else
      match StorageMap.update s.minter_allowances sender
          (fun allowance => checked_sub (allowance.getD 0) amount) with
      | Except.error e => Except.error (ContractError.std e)
      | Except.ok (_allowance, minter2) =>
        let s2 : State := { s with minter_allowances := minter2 }
        let denom := s2.config.denom
        let mint_tokens_msg :=
          CosmosMsg.osmosis (OsmosisMsg.mint_contract_tokens denom amount env_contract_address)
        let send_tokens_msg := CosmosMsg.bankSend to_address [{ denom := denom, amount := amount }]
        Except.ok (s2,
          { attributes := [("method", "mint_tokens")],
            messages := [mint_tokens_msg, send_tokens_msg] })

/-- Embedding of `execute.rs::burn`: reject zero amounts, decrement the caller's
burner allowance via `checked_sub`, then emit the tokenfactory burn from the
contract's own custody. -/
def burn (sender : Addr) (amount : Nat) (s : State) :
    Except ContractError (State × Response) :=
  if amount = 0 then Except.error ContractError.zeroAmount
  else
    match StorageMap.update s.burner_allowances sender
        (fun allowance => checked_sub (allowance.getD 0) amount) with
    | Except.error e => Except.error (ContractError.std e)
    | Except.ok (_allowance, burner2) =>
      let s2 : State := { s with burner_allowances := burner2 }
      let denom := s2.config.denom
      let burn_tokens_msg :=
        CosmosMsg.osmosis (OsmosisMsg.burn_contract_tokens denom amount "")
      Except.ok (s2,
        { attributes := [("method", "execute_burn"), ("amount", toString amount)],
          messages := [burn_tokens_msg] })

/-- Modelled from the spec: `helpers.rs::check_is_contract_owner` is referenced by
`execute.rs` but its file is not in `src/`.  Per the spec (§4.1-§4.3), the owner
gate succeeds only when the caller equals `Config.owner` and otherwise fails with
`Unauthorized`. -/
def check_is_contract_owner (s : State) (sender : Addr) : Except ContractError Unit :=
  if sender = s.config.owner then Except.ok () else Except.error ContractError.unauthorized

/-- Embedding of `execute.rs::change_contract_owner`: owner gate, validate the new
owner, overwrite `Config.owner`. -/
def change_contract_owner (sender : Addr) (new_owner : String) (s : State) :
    Except ContractError (State × Response) :=
  match check_is_contract_owner s sender with
  | Except.error e => Except.error e
  | Except.ok _ =>
    match addr_validate new_owner with
    | Except.error e => Except.error (ContractError.std e)
    | Except.ok new_owner_addr =>
      let s2 : State := { s with config := { s.config with owner := new_owner_addr } }
      Except.ok (s2,
        { attributes := [("method", "change_contract_owner"), ("new_owner", new_owner)],
          messages := [] })

/-- Embedding of `execute.rs::change_tokenfactory_admin`: owner gate, validate the
new admin, emit the tokenfactory `ChangeAdmin` message; local state is not
mutated. -/
def change_tokenfactory_admin (sender : Addr) (new_admin_address : String) (s : State) :
    Except ContractError (State × Response) :=
  match check_is_contract_owner s sender with
  | Except.error e => Except.error e
  | Except.ok _ =>
    match addr_validate new_admin_address with
    | Except.error e => Except.error (ContractError.std e)
    | Except.ok _ =>
      let change_admin_msg :=
        CosmosMsg.osmosis (OsmosisMsg.changeAdmin s.config.denom new_admin_address)
      Except.ok (s,
        { attributes := [("method", "change_tokenfactory_admin")],
          messages := [change_admin_msg] })

/-- Embedding of `execute.rs::set_blacklister`: owner gate, then overwrite the
target's blacklister permission (no idempotence check). -/
def set_blacklister (sender : Addr) (address : String) (status : Bool) (s : State) :
    Except ContractError (State × Response) :=
  match check_is_contract_owner s sender with
  | Except.error e => Except.error e
  | Except.ok _ =>
    match addr_validate address with
    | Except.error e => Except.error (ContractError.std e)
    | Except.ok addr =>
      match StorageMap.update s.blacklister_allowances addr
          (fun _ => (Except.ok status : Except StdError Bool)) with
      | Except.error e => Except.error (ContractError.std e)
      | Except.ok (_, blacklister2) =>
        let s2 : State := { s with blacklister_allowances := blacklister2 }
        Except.ok (s2,
          { attributes := [("method", "set_blacklister"), ("blacklister", address),
              ("status", toString status)],
            messages := [] })

/-- Embedding of `execute.rs::set_freezer`: owner gate, then overwrite the target's
freezer permission. -/
def set_freezer (sender : Addr) (address : String) (status : Bool) (s : State) :
    Except ContractError (State × Response) :=
  match check_is_contract_owner s sender with
  | Except.error e => Except.error e
  | Except.ok _ =>
    match addr_validate address with
    | Except.error e => Except.error (ContractError.std e)
    | Except.ok addr =>
      match StorageMap.update s.freezer_allowances addr
          (fun _ => (Except.ok status : Except StdError Bool)) with
      | Except.error e => Except.error (ContractError.std e)
      | Except.ok (_, freezer2) =>
        let s2 : State := { s with freezer_allowances := freezer2 }
        Except.ok (s2,
          { attributes := [("method", "set_freezer"), ("freezer", address),
              ("status", toString status)],
            messages := [] })

/-- Embedding of `execute.rs::set_burner`: owner gate, validate the target, then
`save` (overwrite) the burner allowance. -/
def set_burner (sender : Addr) (address : String) (allowance : Nat) (s : State) :
    Except ContractError (State × Response) :=
  match check_is_contract_owner s sender with
  | Except.error e => Except.error e
  | Except.ok _ =>
    match addr_validate address with
    | Except.error e => Except.error (ContractError.std e)
    | Except.ok addr =>
      let s2 : State := { s with burner_allowances := s.burner_allowances.save addr allowance }
      Except.ok (s2,
        { attributes := [("method", "set_burner"), ("burner", address),
            ("allowance", toString allowance)],
          messages := [] })

/-- Embedding of `execute.rs::set_minter`: owner gate, validate the target, then
`save` (overwrite) the minter allowance. -/
def set_minter (sender : Addr) (address : String) (allowance : Nat) (s : State) :
    Except ContractError (State × Response) :=
  match check_is_contract_owner s sender with
  | Except.error e => Except.error e
  | Except.ok _ =>
    match addr_validate address with
    | Except.error e => Except.error (ContractError.std e)
    | Except.ok addr =>
      let s2 : State := { s with minter_allowances := s.minter_allowances.save addr allowance }
      Except.ok (s2,
        { attributes := [("method", "set_minter"), ("minter", address),
            ("amount", toString allowance)],
          messages := [] })

/-- Embedding of `execute.rs::freeze`: the caller must hold an explicit
`FREEZER_ALLOWANCES` entry equal to `true` (a missing entry or an explicit `false`
both fall to the wildcard arm, which is `Unauthorized`); on success the config's
`is_frozen` flag is overwritten with `status`. -/
def freeze (sender : Addr) (status : Bool) (s : State) :
    Except ContractError (State × Response) :=
  match StorageMap.may_load s.freezer_allowances sender with
  | some true =>
    let s2 : State := { s with config := { s.config with is_frozen := status } }
    Except.ok (s2,
      { attributes := [("method", "execute_freeze"), ("status", toString status)],
        messages := [] })
  | _ => Except.error ContractError.unauthorized

/-- Embedding of `execute.rs::blacklist`: the caller must hold an explicit
`BLACKLISTER_ALLOWANCES` entry equal to `true` (missing or `false` both yield
`Unauthorized`); then validate the target and overwrite its blacklist status. -/
def blacklist (sender : Addr) (address : String) (status : Bool) (s : State) :
    Except ContractError (State × Response) :=
  match StorageMap.may_load s.blacklister_allowances sender with
  | some true =>
    match addr_validate address with
    | Except.error e => Except.error (ContractError.std e)
    | Except.ok addr =>
      match StorageMap.update s.blacklisted_addresses addr
          (fun _stat => (Except.ok status : Except ContractError Bool)) with
      | Except.error e => Except.error e
      | Except.ok (_, blacklisted2) =>
        let s2 : State := { s with blacklisted_addresses := blacklisted2 }
        Except.ok (s2,
          { attributes := [("method", "blacklist"), ("address", address),
              ("status", toString status)],
            messages := [] })
  | _ => Except.error ContractError.unauthorized

/-! ## Entry points from `src/contract.rs` -/

/-- Embedding of `contract.rs::instantiate`: stores a fresh `Config` with the sender
as owner, `is_frozen = false`, and the denom set to the literal placeholder
`"TODO"` (the source carries the comment `// TODO: use denom from actual message`
and never uses `msg.subdenom`; the `OsmosisMsg::CreateDenom` value it builds is
dropped, not attached to the response).  `cw2::set_contract_version` only writes
external migration metadata and is outside this model.  Instantiation starts from
empty storage, so the result is the full post-instantiation state. -/
def instantiate (sender : Addr) (msg_subdenom : String) : State × Response :=
  let _create_denom_msg := OsmosisMsg.createDenom msg_subdenom
  let config : Config := { owner := sender, is_frozen := false, denom := "TODO" }
  ({ config := config,
     minter_allowances := fun _ => none,
     burner_allowances := fun _ => none,
     blacklister_allowances := fun _ => none,
     freezer_allowances := fun _ => none,
     blacklisted_addresses := fun _ => none },
   { attributes := [("method", "instantiate"), ("owner", sender)], messages := [] })

/-- Embedding of `contract.rs::query_denom`. -/
def query_denom (s : State) : String := s.config.denom

/-- Embedding of `contract.rs::query_is_frozen` (the `is_frozen` field of the
`IsFrozenResponse` it serializes). -/
def query_is_frozen (s : State) : Bool := s.config.is_frozen

/-- The `ExecuteMsg` enum as consumed by `contract.rs::execute`: its exhaustive
match handles exactly the variants `Mint { to_address, amount }` and
`Blacklist { address, status }` (`AddMinter` and `Burn` appear only in comments);
`msg.rs` itself is not in `src/`, so the variant list is taken from that match. -/
inductive ExecuteMsg where
  | mint (to_address : String) (amount : Nat)
  | blacklist (address : String) (status : Bool)
deriving DecidableEq, Repr

/-- Embedding of `contract.rs::execute_mint`: validate the recipient, read the
denom, reject zero amounts, decrement the caller's minter allowance.  The
`mint_tokens_msg` it builds is bound to an unused local `res`; the function
returns a fresh `Response` carrying only the attribute `("method",
"try_increment")` and **no** outbound messages. -/
def execute_mint (env_contract_address sender : Addr) (to_address : String)
    (amount : Nat) (s : State) : Except ContractError (State × Response) :=
  match addr_validate to_address with
  | Except.error e => Except.error (ContractError.std e)
  | Except.ok _ =>
    let denom := query_denom s
    if amount = 0 then Except.error ContractError.zeroAmount
    else
      match StorageMap.update s.minter_allowances sender
          (fun allowance => checked_sub (allowance.getD 0) amount) with
      | Except.error e => Except.error (ContractError.std e)
      | Except.ok (_allowance, minter2) =>
        let s2 : State := { s with minter_allowances := minter2 }
        let _mint_tokens_msg :=
          CosmosMsg.osmosis (OsmosisMsg.mint_contract_tokens denom amount env_contract_address)
        Except.ok (s2,
          { attributes := [("method", "try_increment")], messages := [] })

/-- Embedding of `contract.rs::execute_blacklist`: validate the target, read the
denom, then read the caller's blacklister permission with `Map::load` — so a
caller with **no stored entry** fails with the propagated `StdError::NotFound`,
not `Unauthorized`; only an explicit `false` entry yields `Unauthorized`.  On
success the target's blacklist status is overwritten. -/
def execute_blacklist (sender : Addr) (address : String) (status : Bool) (s : State) :
    Except ContractError (State × Response) :=
  match addr_validate address with
  | Except.error e => Except.error (ContractError.std e)
  | Except.ok addr =>
    let _denom := query_denom s
    match StorageMap.load s.blacklister_allowances sender with
    | Except.error e => Except.error (ContractError.std e)
    | Except.ok permitted =>
      if permitted = false then Except.error ContractError.unauthorized
      else
        match StorageMap.update s.blacklisted_addresses addr
            (fun _current_status => (Except.ok status : Except StdError Bool)) with
        | Except.error e => Except.error (ContractError.std e)
        | Except.ok (_, blacklisted2) =>
          let s2 : State := { s with blacklisted_addresses := blacklisted2 }
          Except.ok (s2, { attributes := [("method", "blacklist")], messages := [] })

/-- Embedding of `contract.rs::execute`, the command dispatcher: it routes
`ExecuteMsg::Mint` to `execute_mint` and `ExecuteMsg::Blacklist` to
`execute_blacklist`, and nothing else. -/
def execute (env_contract_address sender : Addr) (msg : ExecuteMsg) (s : State) :
    Except ContractError (State × Response) :=
  match msg with
  | ExecuteMsg.mint to_address amount =>
    execute_mint env_contract_address sender to_address amount s
  | ExecuteMsg.blacklist address status => execute_blacklist sender address status s

/-- Embedding of `contract.rs::beforesend_hook` (routed from
`SudoMsg::BeforeSend`): load the config, validate both addresses, reject with
`Frozen` when the global freeze flag is set, then *load the sender's blacklist
status without acting on it* and allow the transfer. -/
def beforesend_hook (s : State) (from_addr to_addr : String) (amount : List Coin) :
    Except ContractError (State × Response) :=
  let config := s.config
  match addr_validate from_addr with
  | Except.error e => Except.error (ContractError.std e)
  | Except.ok from_address =>
    match addr_validate to_addr with
    | Except.error e => Except.error (ContractError.std e)
    | Except.ok _to_address =>
      if config.is_frozen then Except.error ContractError.frozen
      else
        let _from_blacklist_status := StorageMap.may_load s.blacklisted_addresses from_address
        let _amount := amount
        Except.ok (s, { attributes := [("method", "beforesend_hook")], messages := [] })

/-! ## Command-level semantics

Each `Cmd` is one invocation of a handler from `execute.rs`; `runCmd` applies the
handler and `step` gives the CosmWasm state semantics: a handler that fails has
all of its writes rolled back, so the state is unchanged. -/

/-- One invocation of an `execute.rs` handler, tagged with its caller. -/
inductive Cmd where
  | mint (sender to_address : Addr) (amount : Nat)
  | burn (sender : Addr) (amount : Nat)
  | change_contract_owner (sender : Addr) (new_owner : String)
  | change_tokenfactory_admin (sender : Addr) (new_admin_address : String)
  | set_blacklister (sender : Addr) (address : String) (status : Bool)
  | set_freezer (sender : Addr) (address : String) (status : Bool)
  | set_burner (sender : Addr) (address : String) (allowance : Nat)
  | set_minter (sender : Addr) (address : String) (allowance : Nat)
  | freeze (sender : Addr) (status : Bool)
  | blacklist (sender : Addr) (address : String) (status : Bool)

/-- Dispatch one command to its `execute.rs` handler. -/
def runCmd (env_contract_address : Addr) (c : Cmd) (s : State) :
    Except ContractError (State × Response) :=
  match c with
  | Cmd.mint sender to_address amount => mint env_contract_address sender to_address amount s
  | Cmd.burn sender amount => burn sender amount s
  | Cmd.change_contract_owner sender new_owner => change_contract_owner sender new_owner s
  | Cmd.change_tokenfactory_admin sender new_admin_address =>
    change_tokenfactory_admin sender new_admin_address s
  | Cmd.set_blacklister sender address status => set_blacklister sender address status s
  | Cmd.set_freezer sender address status => set_freezer sender address status s
  | Cmd.set_burner sender address allowance => set_burner sender address allowance s
  | Cmd.set_minter sender address allowance => set_minter sender address allowance s
  | Cmd.freeze sender status => freeze sender status s
  | Cmd.blacklist sender address status => blacklist sender address status s

/-- The state after one command: the handler's new state on success, the old state
on failure (CosmWasm rolls back every write of a failed execution). -/
def step (env_contract_address : Addr) (s : State) (c : Cmd) : State :=
  match runCmd env_contract_address c s with
  | Except.ok p => p.1
  | Except.error _ => s

/-- The state after a sequence of commands. -/
def execTrace (env_contract_address : Addr) (s : State) (cs : List Cmd) : State :=
  cs.foldl (step env_contract_address) s

/-- Whether a handler invocation succeeded. -/
def isSuccess {α : Type} (r : Except ContractError α) : Bool :=
  match r with
  | Except.ok _ => true
  | Except.error _ => false

/-- The error of a failed invocation, `none` on success. -/
def resultError {α : Type} (r : Except ContractError α) : Option ContractError :=
  match r with
  | Except.ok _ => none
  | Except.error e => some e

/-- The outbound messages of an invocation (empty on failure). -/
def msgsOf (r : Except ContractError (State × Response)) : List CosmosMsg :=
  match r with
  | Except.ok p => p.2.messages
  | Except.error _ => []

/-- Whether a command is a `freeze` with status `false` that succeeds on the given
state — the only kind of step that can clear the freeze flag. -/
def unfreezeStep (env_contract_address : Addr) (s : State) (c : Cmd) : Bool :=
  match c with
  | Cmd.freeze sender false => isSuccess (runCmd env_contract_address (Cmd.freeze sender false) s)
  | _ => false

/-- Whether a trace contains a successful `freeze(false)` step. -/
def hasUnfreeze (env_contract_address : Addr) (s : State) : List Cmd → Bool
  | [] => false
  | c :: cs =>
    unfreezeStep env_contract_address s c
      || hasUnfreeze env_contract_address (step env_contract_address s c) cs

/-- An all-empty storage around a given config, used to build concrete states. -/
def baseState (owner : Addr) (frozen : Bool) (denom : String) : State :=
  { config := { owner := owner, is_frozen := frozen, denom := denom },
    minter_allowances := fun _ => none,
    burner_allowances := fun _ => none,
    blacklister_allowances := fun _ => none,
    freezer_allowances := fun _ => none,
    blacklisted_addresses := fun _ => none }

/-! ## Symbolic-execution lemmas for the handlers -/

theorem step_of_error {env c s e} (h : runCmd env c s = Except.error e) :
    step env s c = s := by
  simp [step, h]

theorem step_of_ok {env c s p} (h : runCmd env c s = Except.ok p) :
    step env s c = p.1 := by
  simp [step, h]

theorem mint_eq_ok (env sender : Addr) {to_addr : String} {amt : Nat} {s : State}
    (hv : validAddr to_addr = true)
    (ha : amt ≠ 0) (hle : amt ≤ (s.minter_allowances sender).getD 0) :
    mint env sender to_addr amt s =
      Except.ok
        ({ s with minter_allowances :=
            s.minter_allowances.save sender ((s.minter_allowances sender).getD 0 - amt) },
         { attributes := [("method", "mint_tokens")],
           messages :=
             [CosmosMsg.osmosis (OsmosisMsg.mintTokens s.config.denom amt env),
              CosmosMsg.bankSend to_addr [{ denom := s.config.denom, amount := amt }]] }) := by
  unfold mint addr_validate StorageMap.update checked_sub OsmosisMsg.mint_contract_tokens
  simp [hv, ha, hle]

theorem mint_eq_insufficient (env sender : Addr) {to_addr : String} {amt : Nat} {s : State}
    (hv : validAddr to_addr = true)
    (ha : amt ≠ 0) (hgt : (s.minter_allowances sender).getD 0 < amt) :
    mint env sender to_addr amt s = Except.error insufficientAllowance := by
  unfold mint addr_validate StorageMap.update checked_sub insufficientAllowance
  simp [hv, ha, Nat.not_le.mpr hgt]

theorem mint_ok_config {env sender to_addr amt s p}
    (h : mint env sender to_addr amt s = Except.ok p) : p.1.config = s.config := by
  unfold mint at h
  split at h
  · exact Except.noConfusion h
  · split at h
    · exact Except.noConfusion h
    · split at h
      · exact Except.noConfusion h
      · cases h; rfl

theorem burn_ok_config {sender amt s p}
    (h : burn sender amt s = Except.ok p) : p.1.config = s.config := by
  unfold burn at h
  split at h
  · exact Except.noConfusion h
  · split at h
    · exact Except.noConfusion h
    · cases h; rfl

theorem change_contract_owner_eq_ok {sender new_owner : Addr} {s : State}
    (hs : sender = s.config.owner) (hv : validAddr new_owner = true) :
    change_contract_owner sender new_owner s =
      Except.ok ({ s with config := { s.config with owner := new_owner } },
        { attributes := [("method", "change_contract_owner"), ("new_owner", new_owner)],
          messages := [] }) := by
  unfold change_contract_owner check_is_contract_owner addr_validate
  simp [hs, hv]

theorem change_contract_owner_eq_unauthorized (new_owner : String) {sender : Addr}
    {s : State} (hs : sender ≠ s.config.owner) :
    change_contract_owner sender new_owner s = Except.error ContractError.unauthorized := by
  unfold change_contract_owner check_is_contract_owner
  simp [hs]

theorem change_contract_owner_ok_config {sender new_owner s p}
    (h : change_contract_owner sender new_owner s = Except.ok p) :
    p.1.config.is_frozen = s.config.is_frozen ∧ p.1.config.denom = s.config.denom := by
  unfold change_contract_owner at h
  split at h
  · exact Except.noConfusion h
  · split at h
    · exact Except.noConfusion h
    · cases h; exact ⟨rfl, rfl⟩

theorem change_tokenfactory_admin_ok_state {sender new_admin s p}
    (h : change_tokenfactory_admin sender new_admin s = Except.ok p) : p.1 = s := by
  unfold change_tokenfactory_admin at h
  split at h
  · exact Except.noConfusion h
  · split at h
    · exact Except.noConfusion h
    · cases h; rfl

theorem set_blacklister_ok_config {sender address st s p}
    (h : set_blacklister sender address st s = Except.ok p) : p.1.config = s.config := by
  unfold set_blacklister at h
  split at h
  · exact Except.noConfusion h
  · split at h
    · exact Except.noConfusion h
    · split at h
      · exact Except.noConfusion h
      · cases h; rfl

theorem set_freezer_ok_config {sender address st s p}
    (h : set_freezer sender address st s = Except.ok p) : p.1.config = s.config := by
  unfold set_freezer at h
  split at h
  · exact Except.noConfusion h
  · split at h
    · exact Except.noConfusion h
    · split at h
      · exact Except.noConfusion h
      · cases h; rfl

theorem set_burner_ok_config {sender address amt s p}
    (h : set_burner sender address amt s = Except.ok p) : p.1.config = s.config := by
  unfold set_burner at h
  split at h
  · exact Except.noConfusion h
  · split at h
    · exact Except.noConfusion h
    · cases h; rfl

theorem set_minter_ok_config {sender address amt s p}
    (h : set_minter sender address amt s = Except.ok p) : p.1.config = s.config := by
  unfold set_minter at h
  split at h
  · exact Except.noConfusion h
  · split at h
    · exact Except.noConfusion h
    · cases h; rfl

theorem blacklist_ok_config {sender address st s p}
    (h : blacklist sender address st s = Except.ok p) : p.1.config = s.config := by
  unfold blacklist at h
  split at h
  · split at h
    · exact Except.noConfusion h
    · split at h
      · exact Except.noConfusion h
      · cases h; rfl
  · exact Except.noConfusion h

theorem freeze_eq_ok (st : Bool) {sender : Addr} {s : State}
    (hperm : s.freezer_allowances sender = some true) :
    freeze sender st s =
      Except.ok ({ s with config := { s.config with is_frozen := st } },
        { attributes := [("method", "execute_freeze"), ("status", toString st)],
          messages := [] }) := by
  unfold freeze StorageMap.may_load
  rw [hperm]

theorem freeze_eq_unauthorized {sender : Addr} {st : Bool} {s : State}
    (hperm : s.freezer_allowances sender ≠ some true) :
    freeze sender st s = Except.error ContractError.unauthorized := by
  unfold freeze StorageMap.may_load
  rcases hx : s.freezer_allowances sender with _ | b
  · rfl
  · cases b
    · rfl
    · exact absurd hx hperm

theorem freeze_ok_state {sender st s p} (h : freeze sender st s = Except.ok p) :
    p.1 = { s with config := { s.config with is_frozen := st } } := by
  unfold freeze StorageMap.may_load at h
  split at h
  · cases h; rfl
  · exact Except.noConfusion h

theorem freeze_ok_perm {sender st s p} (h : freeze sender st s = Except.ok p) :
    s.freezer_allowances sender = some true := by
  unfold freeze StorageMap.may_load at h
  split at h
  · assumption
  · exact Except.noConfusion h

theorem beforesend_hook_eq_frozen {s : State} {from_addr to_addr : String}
    {amount : List Coin} (hf : validAddr from_addr = true) (ht : validAddr to_addr = true)
    (hfrozen : s.config.is_frozen = true) :
    beforesend_hook s from_addr to_addr amount = Except.error ContractError.frozen := by
  unfold beforesend_hook addr_validate
  simp [hf, ht, hfrozen]

theorem step_preserves_frozen {env : Addr} {s : State} {c : Cmd}
    (h2 : unfreezeStep env s c = false) (h : s.config.is_frozen = true) :
    (step env s c).config.is_frozen = true := by
  cases c with
  | mint sender to_addr amt =>
    cases hm : mint env sender to_addr amt s with
    | error e => rw [step_of_error (c := Cmd.mint sender to_addr amt) hm]; exact h
    | ok p => rw [step_of_ok (c := Cmd.mint sender to_addr amt) hm, mint_ok_config hm]; exact h
  | burn sender amt =>
    cases hm : burn sender amt s with
    | error e => rw [step_of_error (c := Cmd.burn sender amt) hm]; exact h
    | ok p => rw [step_of_ok (c := Cmd.burn sender amt) hm, burn_ok_config hm]; exact h
  | change_contract_owner sender new_owner =>
    cases hm : change_contract_owner sender new_owner s with
    | error e => rw [step_of_error (c := Cmd.change_contract_owner sender new_owner) hm]; exact h
    | ok p =>
      rw [step_of_ok (c := Cmd.change_contract_owner sender new_owner) hm,
        (change_contract_owner_ok_config hm).1]
      exact h
  | change_tokenfactory_admin sender new_admin =>
    cases hm : change_tokenfactory_admin sender new_admin s with
    | error e => rw [step_of_error (c := Cmd.change_tokenfactory_admin sender new_admin) hm]; exact h
    | ok p =>
      rw [step_of_ok (c := Cmd.change_tokenfactory_admin sender new_admin) hm,
        change_tokenfactory_admin_ok_state hm]
      exact h
  | set_blacklister sender address st =>
    cases hm : set_blacklister sender address st s with
    | error e => rw [step_of_error (c := Cmd.set_blacklister sender address st) hm]; exact h
    | ok p =>
      rw [step_of_ok (c := Cmd.set_blacklister sender address st) hm,
        set_blacklister_ok_config hm]
      exact h
  | set_freezer sender address st =>
    cases hm : set_freezer sender address st s with
    | error e => rw [step_of_error (c := Cmd.set_freezer sender address st) hm]; exact h
    | ok p =>
      rw [step_of_ok (c := Cmd.set_freezer sender address st) hm, set_freezer_ok_config hm]
      exact h
  | set_burner sender address amt =>
    cases hm : set_burner sender address amt s with
    | error e => rw [step_of_error (c := Cmd.set_burner sender address amt) hm]; exact h
    | ok p =>
      rw [step_of_ok (c := Cmd.set_burner sender address amt) hm, set_burner_ok_config hm]
      exact h
  | set_minter sender address amt =>
    cases hm : set_minter sender address amt s with
    | error e => rw [step_of_error (c := Cmd.set_minter sender address amt) hm]; exact h
    | ok p =>
      rw [step_of_ok (c := Cmd.set_minter sender address amt) hm, set_minter_ok_config hm]
      exact h
  | blacklist sender address st =>
    cases hm : blacklist sender address st s with
    | error e => rw [step_of_error (c := Cmd.blacklist sender address st) hm]; exact h
    | ok p =>
      rw [step_of_ok (c := Cmd.blacklist sender address st) hm, blacklist_ok_config hm]
      exact h
  | freeze sender st =>
    cases st with
    | true =>
      cases hm : freeze sender true s with
      | error e => rw [step_of_error (c := Cmd.freeze sender true) hm]; exact h
      | ok p => rw [step_of_ok (c := Cmd.freeze sender true) hm, freeze_ok_state hm]
    | false =>
      cases hm : freeze sender false s with
      | error e => rw [step_of_error (c := Cmd.freeze sender false) hm]; exact h
      | ok p =>
        exfalso
        have hU : unfreezeStep env s (Cmd.freeze sender false) = true := by
          simp [unfreezeStep, runCmd, hm, isSuccess]
        rw [h2] at hU
        exact Bool.noConfusion hU

theorem trace_preserves_frozen (env : Addr) (cs : List Cmd) :
    ∀ s : State, s.config.is_frozen = true → hasUnfreeze env s cs = false →
      (execTrace env s cs).config.is_frozen = true := by
  induction cs with
  | nil => intro s h _; exact h
  | cons c cs ih =>
    intro s h hU
    have hU2 : unfreezeStep env s c = false ∧ hasUnfreeze env (step env s c) cs = false := by
      simpa [hasUnfreeze, Bool.or_eq_false_iff] using hU
    have hstep : (step env s c).config.is_frozen = true := step_preserves_frozen hU2.1 h
    simpa [execTrace, List.foldl] using ih (step env s c) hstep hU2.2

/-! ## Concrete states used by witnesses and counterexamples -/

/-- A state with owner `"owner"`, denom `"uusdc"`, not frozen, and a minter
allowance of 100 for `"A"` (Scenario B of the spec). -/
def stateB : State :=
  { baseState "owner" false "uusdc" with
    minter_allowances := StorageMap.save (fun _ => none) "A" 100 }

/-- A non-frozen state in which `"f"` holds the freezer permission. -/
def stateFreezer : State :=
  { baseState "owner" false "uusdc" with
    freezer_allowances := StorageMap.save (fun _ => none) "f" true }

/-- A frozen state in which `"f"` holds the freezer permission. -/
def stateFrozen : State :=
  { baseState "owner" true "uusdc" with
    freezer_allowances := StorageMap.save (fun _ => none) "f" true }

/-- A command trace with no `freeze(false)` step. -/
def traceW : List Cmd :=
  [Cmd.set_minter "owner" "alice" 3, Cmd.freeze "f" true, Cmd.mint "alice" "bob" 1]

/-- C4 (amended as forced by the counterexample: the guard validates both addresses
before consulting the freeze flag, so the `Frozen` rejection is guaranteed for
well-formed `from`/`to`): `freeze(status)` succeeds iff the caller's stored
`Freezer` permission is `true` (a missing entry or an explicit `false` yield
`Unauthorized`); a successful `freeze(true)` leaves the state frozen; and from any
frozen state, after any trace containing no successful `freeze(false)`, the
pre-transfer guard rejects every transfer with well-formed addresses with reason
`Frozen`. -/
theorem freeze_gate_and_frozen_until_unfreeze (env sender : Addr) (status : Bool)
    (s : State) (cs : List Cmd) (from_addr to_addr : String) (amount : List Coin) :
    (isSuccess (runCmd env (Cmd.freeze sender status) s) = true ↔
      s.freezer_allowances sender = some true) ∧
    (s.freezer_allowances sender ≠ some true →
      runCmd env (Cmd.freeze sender status) s = Except.error ContractError.unauthorized) ∧
    (isSuccess (runCmd env (Cmd.freeze sender true) s) = true →
      (step env s (Cmd.freeze sender true)).config.is_frozen = true) ∧
    (s.config.is_frozen = true → hasUnfreeze env s cs = false →
      validAddr from_addr = true → validAddr to_addr = true →
      beforesend_hook (execTrace env s cs) from_addr to_addr amount =
        Except.error ContractError.frozen) := by
  refine ⟨⟨?_, ?_⟩, ?_, ?_, ?_⟩
  · intro hOk
    by_contra hne
    have hOk2 : isSuccess (freeze sender status s) = true := hOk
    rw [freeze_eq_unauthorized hne] at hOk2
    exact Bool.noConfusion hOk2
  · intro hperm
    have : isSuccess (freeze sender status s) = true := by
      rw [freeze_eq_ok status hperm]; rfl
    exact this
  · intro hne
    exact freeze_eq_unauthorized hne
  · intro hOk
    cases hm : freeze sender true s with
    | error e =>
      have hOk2 : isSuccess (freeze sender true s) = true := hOk
      rw [hm] at hOk2
      exact Bool.noConfusion hOk2
    | ok p => rw [step_of_ok (c := Cmd.freeze sender true) hm, freeze_ok_state hm]
  · intro hfrozen hU hf ht
    exact beforesend_hook_eq_frozen hf ht (trace_preserves_frozen env cs s hfrozen hU)

/-- C4 counterexample to the claim as stated: in a state reached by a successful
`Freeze(true)`, the pre-transfer guard invoked with the malformed sender `""`
rejects with the address-validation error, not with `Frozen` — so the guard does
not reject *every* `(from, to, amount)` with reason `Frozen`. -/
theorem frozen_hook_invalid_address_counterexample :
    isSuccess (runCmd "contract" (Cmd.freeze "f" true) stateFreezer) = true ∧
    (step "contract" stateFreezer (Cmd.freeze "f" true)).config.is_frozen = true ∧
    resultError
        (beforesend_hook (step "contract" stateFreezer (Cmd.freeze "f" true)) "" "bob" []) =
      some (ContractError.std (StdError.genericErr "invalid address")) ∧
    ContractError.std (StdError.genericErr "invalid address") ≠ ContractError.frozen := by
  decide

/-- C4 witness: the amended theorem applied at a concrete frozen state and a
concrete three-command trace without an unfreeze. -/
theorem freeze_gate_witness :
    beforesend_hook (execTrace "contract" stateFrozen traceW) "alice" "bob" [] =
      Except.error ContractError.frozen :=
  (freeze_gate_and_frozen_until_unfreeze "contract" "f" true stateFrozen traceW
    "alice" "bob" []).2.2.2 (by decide) (by decide) (by decide) (by decide)

/-- C1: for a well-formed recipient and a positive amount, a mint within the
caller's minter allowance succeeds and leaves the stored minter allowance equal to
the old allowance minus the amount; a mint exceeding the allowance fails with the
insufficient-allowance error (the failed `checked_sub`, which the spec's taxonomy
names `InsufficientAllowance`) and leaves the state unchanged. -/
theorem mint_allowance_conservation (env sender : Addr) (to_addr : String) (a : Nat)
    (s : State) (hv : validAddr to_addr = true) (ha : 0 < a) :
    (a ≤ (s.minter_allowances sender).getD 0 →
      isSuccess (mint env sender to_addr a s) = true ∧
      (step env s (Cmd.mint sender to_addr a)).minter_allowances sender =
        some ((s.minter_allowances sender).getD 0 - a)) ∧
    ((s.minter_allowances sender).getD 0 < a →
      mint env sender to_addr a s = Except.error insufficientAllowance ∧
      step env s (Cmd.mint sender to_addr a) = s) := by
  have ha0 : a ≠ 0 := Nat.pos_iff_ne_zero.mp ha
  constructor
  · intro hle
    have hm := mint_eq_ok env sender hv ha0 hle
    constructor
    · have : isSuccess (mint env sender to_addr a s) = true := by rw [hm]; rfl
      exact this
    · rw [step_of_ok (c := Cmd.mint sender to_addr a) hm]
      simp [StorageMap.save]
  · intro hgt
    have hm := mint_eq_insufficient env sender hv ha0 hgt
    exact ⟨hm, step_of_error (c := Cmd.mint sender to_addr a) hm⟩

/-- C1 witness: at Scenario B's state, `mint` of 40 by `"A"` (allowance 100)
succeeds and leaves allowance 60; `mint` of 101 fails with the
insufficient-allowance error and changes nothing. -/
theorem mint_allowance_conservation_witness :
    isSuccess (mint "contract" "A" "B" 40 stateB) = true ∧
    (step "contract" stateB (Cmd.mint "A" "B" 40)).minter_allowances "A" = some 60 ∧
    mint "contract" "A" "B" 101 stateB = Except.error insufficientAllowance ∧
    step "contract" stateB (Cmd.mint "A" "B" 101) = stateB := by
  have h40 := mint_allowance_conservation "contract" "A" "B" 40 stateB (by decide) (by decide)
  have h101 := mint_allowance_conservation "contract" "A" "B" 101 stateB (by decide) (by decide)
  exact ⟨(h40.1 (by decide)).1, (h40.1 (by decide)).2, (h101.2 (by decide)).1,
    (h101.2 (by decide)).2⟩

/-- A non-frozen state in which `"x"` is blacklisted. -/
def stateBlacklisted : State :=
  { baseState "owner" false "uusdc" with
    blacklisted_addresses := StorageMap.save (fun _ => none) "x" true }

/-- C2 (code-bug evidence): with the global freeze flag false and `"x"`
blacklisted, the pre-transfer guard invoked with well-formed addresses loads the
sender's blacklist status but allows the transfer — it returns success rather than
the claimed `Blacklisted` rejection (no such rejection reason even exists in
`error.rs`). -/
theorem beforesend_hook_ignores_blacklist :
    stateBlacklisted.config.is_frozen = false ∧
    stateBlacklisted.blacklisted_addresses "x" = some true ∧
    validAddr "x" = true ∧ validAddr "y" = true ∧
    isSuccess
        (beforesend_hook stateBlacklisted "x" "y" [{ denom := "uusdc", amount := 5 }]) = true ∧
    resultError
        (beforesend_hook stateBlacklisted "x" "y" [{ denom := "uusdc", amount := 5 }]) = none := by
  decide

/-- C3 (code-bug evidence): after instantiation with subdenom `"uusdc"`, the
`Denom` query returns the placeholder `"TODO"` (the source never uses
`msg.subdenom`), not `"uusdc"`; the `IsFrozen` query does return `false` as
claimed. -/
theorem instantiate_denom_placeholder :
    query_denom (instantiate "creator" "uusdc").1 = "TODO" ∧
    query_denom (instantiate "creator" "uusdc").1 ≠ "uusdc" ∧
    query_is_frozen (instantiate "creator" "uusdc").1 = false := by
  decide

/-- A non-frozen state in which the blacklister permission of `"c"` is an explicit
`false`. -/
def stateBlkFalse : State :=
  { baseState "owner" false "uusdc" with
    blacklister_allowances := StorageMap.save (fun _ => none) "c" false }

/-- A non-frozen state in which `"c"` holds the blacklister permission. -/
def stateBlkTrue : State :=
  { baseState "owner" false "uusdc" with
    blacklister_allowances := StorageMap.save (fun _ => none) "c" true }

/-- C5 (code-bug evidence): dispatched through `contract.rs::execute`, a
`Blacklist` command from a caller with no stored blacklister entry fails with the
propagated storage `NotFound` error — not `Unauthorized` as claimed; a caller with
an explicit `false` entry does get `Unauthorized`, a caller with `true` succeeds,
and the sibling handler `execute.rs::blacklist` returns `Unauthorized` in both
deny cases. -/
theorem execute_blacklist_missing_entry_not_found :
    resultError (execute "contract" "c" (ExecuteMsg.blacklist "x" true) stateB) =
      some (ContractError.std StdError.notFound) ∧
    some (ContractError.std StdError.notFound) ≠ some ContractError.unauthorized ∧
    resultError (blacklist "c" "x" true stateB) = some ContractError.unauthorized ∧
    resultError (execute "contract" "c" (ExecuteMsg.blacklist "x" true) stateBlkFalse) =
      some ContractError.unauthorized ∧
    resultError (blacklist "c" "x" true stateBlkFalse) = some ContractError.unauthorized ∧
    isSuccess (execute "contract" "c" (ExecuteMsg.blacklist "x" true) stateBlkTrue) = true ∧
    isSuccess (blacklist "c" "x" true stateBlkTrue) = true := by
  decide

/-- C6: every caller other than the stored owner gets `Unauthorized` from each of
the six owner-gated commands and leaves the state unchanged; invoked by the owner
with a well-formed target, each succeeds.  (`check_is_contract_owner` is modelled
from the spec, its `helpers.rs` not being under `src/`.) -/
theorem owner_gate (env sender : Addr) (target : String) (amt : Nat) (st : Bool)
    (s : State) :
    (sender ≠ s.config.owner →
      runCmd env (Cmd.set_minter sender target amt) s = Except.error ContractError.unauthorized ∧
      runCmd env (Cmd.set_burner sender target amt) s = Except.error ContractError.unauthorized ∧
      runCmd env (Cmd.set_freezer sender target st) s = Except.error ContractError.unauthorized ∧
      runCmd env (Cmd.set_blacklister sender target st) s =
        Except.error ContractError.unauthorized ∧
      runCmd env (Cmd.change_contract_owner sender target) s =
        Except.error ContractError.unauthorized ∧
      runCmd env (Cmd.change_tokenfactory_admin sender target) s =
        Except.error ContractError.unauthorized ∧
      step env s (Cmd.set_minter sender target amt) = s ∧
      step env s (Cmd.set_burner sender target amt) = s ∧
      step env s (Cmd.set_freezer sender target st) = s ∧
      step env s (Cmd.set_blacklister sender target st) = s ∧
      step env s (Cmd.change_contract_owner sender target) = s ∧
      step env s (Cmd.change_tokenfactory_admin sender target) = s) ∧
    (sender = s.config.owner → validAddr target = true →
      isSuccess (runCmd env (Cmd.set_minter sender target amt) s) = true ∧
      isSuccess (runCmd env (Cmd.set_burner sender target amt) s) = true ∧
      isSuccess (runCmd env (Cmd.set_freezer sender target st) s) = true ∧
      isSuccess (runCmd env (Cmd.set_blacklister sender target st) s) = true ∧
      isSuccess (runCmd env (Cmd.change_contract_owner sender target) s) = true ∧
      isSuccess (runCmd env (Cmd.change_tokenfactory_admin sender target) s) = true) := by
  constructor
  · intro hs
    have h1 : set_minter sender target amt s = Except.error ContractError.unauthorized := by
      unfold set_minter check_is_contract_owner; simp [hs]
    have h2 : set_burner sender target amt s = Except.error ContractError.unauthorized := by
      unfold set_burner check_is_contract_owner; simp [hs]
    have h3 : set_freezer sender target st s = Except.error ContractError.unauthorized := by
      unfold set_freezer check_is_contract_owner; simp [hs]
    have h4 : set_blacklister sender target st s = Except.error ContractError.unauthorized := by
      unfold set_blacklister check_is_contract_owner; simp [hs]
    have h5 := change_contract_owner_eq_unauthorized target hs
    have h6 : change_tokenfactory_admin sender target s =
        Except.error ContractError.unauthorized := by
      unfold change_tokenfactory_admin check_is_contract_owner; simp [hs]
    exact ⟨h1, h2, h3, h4, h5, h6,
      step_of_error (c := Cmd.set_minter sender target amt) h1,
      step_of_error (c := Cmd.set_burner sender target amt) h2,
      step_of_error (c := Cmd.set_freezer sender target st) h3,
      step_of_error (c := Cmd.set_blacklister sender target st) h4,
      step_of_error (c := Cmd.change_contract_owner sender target) h5,
      step_of_error (c := Cmd.change_tokenfactory_admin sender target) h6⟩
  · intro hs hv
    refine ⟨?_, ?_, ?_, ?_, ?_, ?_⟩
    · show isSuccess (set_minter sender target amt s) = true
      unfold set_minter check_is_contract_owner addr_validate
      simp [hs, hv, isSuccess]
    · show isSuccess (set_burner sender target amt s) = true
      unfold set_burner check_is_contract_owner addr_validate
      simp [hs, hv, isSuccess]
    · show isSuccess (set_freezer sender target st s) = true
      unfold set_freezer check_is_contract_owner addr_validate StorageMap.update
      simp [hs, hv, isSuccess]
    · show isSuccess (set_blacklister sender target st s) = true
      unfold set_blacklister check_is_contract_owner addr_validate StorageMap.update
      simp [hs, hv, isSuccess]
    · show isSuccess (change_contract_owner sender target s) = true
      rw [change_contract_owner_eq_ok hs hv]; rfl
    · show isSuccess (change_tokenfactory_admin sender target s) = true
      unfold change_tokenfactory_admin check_is_contract_owner addr_validate
      simp [hs, hv, isSuccess]

/-- C6 witness: at a concrete state owned by `"owner"`, the caller `"bob"` gets
`Unauthorized` from `set_minter` and causes no state change, while `"owner"`
succeeds. -/
theorem owner_gate_witness :
    runCmd "contract" (Cmd.set_minter "bob" "alice" 7) (baseState "owner" false "uusdc") =
      Except.error ContractError.unauthorized ∧
    step "contract" (baseState "owner" false "uusdc") (Cmd.set_minter "bob" "alice" 7) =
      baseState "owner" false "uusdc" ∧
    isSuccess (runCmd "contract" (Cmd.change_contract_owner "owner" "alice")
      (baseState "owner" false "uusdc")) = true := by
  have hb := owner_gate "contract" "bob" "alice" 7 true (baseState "owner" false "uusdc")
  have ho := owner_gate "contract" "owner" "alice" 7 true (baseState "owner" false "uusdc")
  exact ⟨(hb.1 (by decide)).1, (hb.1 (by decide)).2.2.2.2.2.2.1,
    (ho.2 (by decide) (by decide)).2.2.2.2.1⟩

/-- C7 (amended as forced by the counterexample: for every well-formed recipient):
mint of amount 0 and burn of amount 0 fail with `ZeroAmount` for every caller,
allowance state and permission state, and change no state; the dispatched
`ExecuteMsg::Mint` path rejects a zero amount the same way. -/
theorem zero_amount_rejection (env sender : Addr) (to_addr : String) (s : State)
    (hv : validAddr to_addr = true) :
    mint env sender to_addr 0 s = Except.error ContractError.zeroAmount ∧
    burn sender 0 s = Except.error ContractError.zeroAmount ∧
    execute env sender (ExecuteMsg.mint to_addr 0) s = Except.error ContractError.zeroAmount ∧
    step env s (Cmd.mint sender to_addr 0) = s ∧
    step env s (Cmd.burn sender 0) = s := by
  have h1 : mint env sender to_addr 0 s = Except.error ContractError.zeroAmount := by
    unfold mint addr_validate; simp [hv]
  have h2 : burn sender 0 s = Except.error ContractError.zeroAmount := by
    unfold burn; simp
  have h3 : execute env sender (ExecuteMsg.mint to_addr 0) s =
      Except.error ContractError.zeroAmount := by
    unfold execute execute_mint addr_validate; simp [hv]
  exact ⟨h1, h2, h3, step_of_error (c := Cmd.mint sender to_addr 0) h1,
    step_of_error (c := Cmd.burn sender 0) h2⟩

/-- C7 counterexample to the claim as stated: a mint of amount 0 to the malformed
recipient `""` fails with the address-validation error (validation runs before the
zero-amount check), not with `ZeroAmount` — so the rejection is not `ZeroAmount`
for *every* recipient. -/
theorem zero_amount_invalid_recipient_counterexample :
    resultError (mint "contract" "m" "" 0 stateB) =
      some (ContractError.std (StdError.genericErr "invalid address")) ∧
    some (ContractError.std (StdError.genericErr "invalid address")) ≠
      some ContractError.zeroAmount := by
  decide

/-- C7 witness: the amended theorem applied at a concrete state and recipient. -/
theorem zero_amount_rejection_witness :
    mint "contract" "A" "B" 0 stateB = Except.error ContractError.zeroAmount ∧
    burn "A" 0 stateB = Except.error ContractError.zeroAmount :=
  ⟨(zero_amount_rejection "contract" "A" "B" stateB (by decide)).1,
   (zero_amount_rejection "contract" "A" "B" stateB (by decide)).2.1⟩

/-- C8 (code-bug evidence): at Scenario B's state, the handler `execute.rs::mint`
emits exactly the tokenfactory mint into the contract's custody followed by the
bank send of 40 uusdc to `"B"`, and leaves allowance 60; but the dispatched
`contract.rs::execute_mint` succeeds while emitting **no** outbound messages (it
drops the mint message it builds and never creates the send). -/
theorem execute_mint_drops_messages :
    msgsOf (mint "contract" "A" "B" 40 stateB) =
      [CosmosMsg.osmosis (OsmosisMsg.mintTokens "uusdc" 40 "contract"),
       CosmosMsg.bankSend "B" [{ denom := "uusdc", amount := 40 }]] ∧
    (step "contract" stateB (Cmd.mint "A" "B" 40)).minter_allowances "A" = some 60 ∧
    isSuccess (execute "contract" "A" (ExecuteMsg.mint "B" 40) stateB) = true ∧
    msgsOf (execute "contract" "A" (ExecuteMsg.mint "B" 40) stateB) = [] := by
  decide

/-- C9 (code-bug evidence): the dispatcher's message type has exactly the two
variants `Mint` and `Blacklist`, each routed to its handler; no other command of
the spec's external interface (Burn, SetMinterAllowance, SetBurnerAllowance,
SetFreezerPermission, SetBlacklisterPermission, ChangeOwner, ChangeAdmin, Freeze)
can reach `contract.rs::execute`. -/
theorem dispatcher_only_mint_and_blacklist :
    (∀ m : ExecuteMsg, (∃ to_addr amt, m = ExecuteMsg.mint to_addr amt) ∨
      (∃ address st, m = ExecuteMsg.blacklist address st)) ∧
    (∀ (env sender : Addr) (to_addr : String) (amt : Nat) (s : State),
      execute env sender (ExecuteMsg.mint to_addr amt) s =
        execute_mint env sender to_addr amt s) ∧
    (∀ (env sender : Addr) (address : String) (st : Bool) (s : State),
      execute env sender (ExecuteMsg.blacklist address st) s =
        execute_blacklist sender address st s) := by
  refine ⟨?_, fun _ _ _ _ _ => rfl, fun _ _ _ _ _ => rfl⟩
  intro m
  cases m with
  | mint to_addr amt => exact Or.inl ⟨to_addr, amt, rfl⟩
  | blacklist address st => exact Or.inr ⟨address, st, rfl⟩

/-- C10: a successful `freeze(status)` sets only `Config.is_frozen`, leaving the
owner, the denom and all five storage maps unchanged; a successful
`change_contract_owner` sets only `Config.owner`, leaving `is_frozen`, the denom
and all five storage maps unchanged. -/
theorem config_frame_effects (env sender : Addr) (status : Bool) (new_owner : String)
    (s : State) :
    (isSuccess (runCmd env (Cmd.freeze sender status) s) = true →
      (step env s (Cmd.freeze sender status)).config.owner = s.config.owner ∧
      (step env s (Cmd.freeze sender status)).config.denom = s.config.denom ∧
      (step env s (Cmd.freeze sender status)).config.is_frozen = status ∧
      (step env s (Cmd.freeze sender status)).minter_allowances = s.minter_allowances ∧
      (step env s (Cmd.freeze sender status)).burner_allowances = s.burner_allowances ∧
      (step env s (Cmd.freeze sender status)).blacklister_allowances =
        s.blacklister_allowances ∧
      (step env s (Cmd.freeze sender status)).freezer_allowances = s.freezer_allowances ∧
      (step env s (Cmd.freeze sender status)).blacklisted_addresses =
        s.blacklisted_addresses) ∧
    (isSuccess (runCmd env (Cmd.change_contract_owner sender new_owner) s) = true →
      (step env s (Cmd.change_contract_owner sender new_owner)).config.owner = new_owner ∧
      (step env s (Cmd.change_contract_owner sender new_owner)).config.is_frozen =
        s.config.is_frozen ∧
      (step env s (Cmd.change_contract_owner sender new_owner)).config.denom =
        s.config.denom ∧
      (step env s (Cmd.change_contract_owner sender new_owner)).minter_allowances =
        s.minter_allowances ∧
      (step env s (Cmd.change_contract_owner sender new_owner)).burner_allowances =
        s.burner_allowances ∧
      (step env s (Cmd.change_contract_owner sender new_owner)).blacklister_allowances =
        s.blacklister_allowances ∧
      (step env s (Cmd.change_contract_owner sender new_owner)).freezer_allowances =
        s.freezer_allowances ∧
      (step env s (Cmd.change_contract_owner sender new_owner)).blacklisted_addresses =
        s.blacklisted_addresses) := by
  constructor
  · intro hOk
    have hOk2 : isSuccess (freeze sender status s) = true := hOk
    cases hm : freeze sender status s with
    | error e => rw [hm] at hOk2; exact Bool.noConfusion hOk2
    | ok p =>
      rw [step_of_ok (c := Cmd.freeze sender status) hm, freeze_ok_state hm]
      exact ⟨rfl, rfl, rfl, rfl, rfl, rfl, rfl, rfl⟩
  · intro hOk
    have hOk2 : isSuccess (change_contract_owner sender new_owner s) = true := hOk
    by_cases hs : sender = s.config.owner
    · by_cases hv : validAddr new_owner = true
      · have hm := change_contract_owner_eq_ok hs hv
        rw [step_of_ok (c := Cmd.change_contract_owner sender new_owner) hm]
        exact ⟨rfl, rfl, rfl, rfl, rfl, rfl, rfl, rfl⟩
      · have hm : change_contract_owner sender new_owner s =
            Except.error (ContractError.std (StdError.genericErr "invalid address")) := by
          unfold change_contract_owner check_is_contract_owner addr_validate
          simp [hs, hv]
        rw [hm] at hOk2
        exact Bool.noConfusion hOk2
    · have hm := change_contract_owner_eq_unauthorized new_owner hs
      rw [hm] at hOk2
      exact Bool.noConfusion hOk2

/-- C10 witness: a concrete successful freeze keeps owner and denom while setting
the flag; a concrete successful owner change sets the owner and keeps the flag. -/
theorem config_frame_effects_witness :
    (step "contract" stateFreezer (Cmd.freeze "f" true)).config.denom = "uusdc" ∧
    (step "contract" stateFreezer (Cmd.freeze "f" true)).config.is_frozen = true ∧
    (step "contract" (baseState "owner" false "uusdc")
      (Cmd.change_contract_owner "owner" "alice")).config.owner = "alice" ∧
    (step "contract" (baseState "owner" false "uusdc")
      (Cmd.change_contract_owner "owner" "alice")).config.is_frozen = false := by
  have hf := config_frame_effects "contract" "f" true "alice" stateFreezer
  have hc := config_frame_effects "contract" "owner" true "alice" (baseState "owner" false "uusdc")
  exact ⟨(hf.1 (by decide)).2.1, (hf.1 (by decide)).2.2.1, (hc.2 (by decide)).1,
    (hc.2 (by decide)).2.1⟩

end CwUsdc
